import Mathlib

/-!
Shallow embedding of the Lantern/Ecliptor compliance notebook
(src/lanterndb/lantern.ipynb) and proofs about its behavior.

The notebook is straight-line Python: two HTTP client cells (PDF ingestion
and chunking), table/embedding-job setup SQL, a retrieval loop over a
Postgres vector table, and an LLM compliance judge.  Each cell is embedded
as a pure Lean function; Python runtime errors (TypeError on subscripting a
tuple with a string, IndexError on an out-of-range list index,
AttributeError on a missing attribute) are made explicit with Except.
-/

/-- Python runtime exceptions that the embedded cells can raise, plus the
error categories named by the specification (dataError, parseError,
externalServiceError); the latter are never raised by the notebook code and
exist so that statements about them can be expressed. -/
inductive PyErr
  | typeError
  | keyError
  | indexError
  | attributeError
  | nameError
  | dataError
  | parseError
  | externalServiceError
deriving DecidableEq, Repr

/-- Flat Python values as they occur in the notebook: ints, strings, bools,
None, a REAL[] vector column value, a list of strings (the chunking API
contract), and a bound-method object reached by attribute access. -/
inductive PyVal
  | none
  | int (n : Int)
  | str (s : String)
  | bool (b : Bool)
  | realList (xs : List Int)
  | strList (xs : List String)
  | method (name : String)
deriving DecidableEq, Repr

/-- A row/record value as handed around by the notebook: either a positional
tuple (what psycopg2 cursor.fetchall returns) or a string-keyed mapping. -/
inductive PyRecord
  | tupleRec (fields : List PyVal)
  | dictRec (kvs : List (String × PyVal))
deriving DecidableEq, Repr

/-- Subscripting a record with a string key, Python semantics: a dict looks
the key up (KeyError when absent); a tuple raises TypeError because tuple
indices must be integers, not str. -/
def PyRecord.subscriptStr : PyRecord → String → Except PyErr PyVal
  | .tupleRec _, _ => .error .typeError
  | .dictRec kvs, k =>
      match kvs.lookup k with
      | some v => .ok v
      | Option.none => .error .keyError

deriving instance DecidableEq for Except

/-- Indexing a Python list with a non-negative index: IndexError when the
index is out of range. -/
def listIndex (xs : List PyRecord) (i : Nat) : Except PyErr PyRecord :=
  match xs[i]? with
  | some c => .ok c
  | Option.none => .error .indexError

/-- Python str() of a value, as used by f-string interpolation. -/
def pyToStr : PyVal → String
  | .none => "None"
  | .int n => toString n
  | .str s => s
  | .bool b => if b then "True" else "False"
  | .realList xs => "[" ++ String.intercalate ", " (xs.map toString) ++ "]"
  | .strList xs => "[" ++ String.intercalate ", " xs ++ "]"
  | .method n => "<built-in method " ++ n ++ ">"

/-- Python default str.strip character set. -/
def pyIsSpace (c : Char) : Bool :=
  c = ' ' || c = '\t' || c = '\n' || c = '\r' || c = '\x0b' || c = '\x0c'

/-- Python str.strip on the character list: drop whitespace from both ends. -/
def stripChars (cs : List Char) : List Char :=
  ((cs.dropWhile pyIsSpace).reverse.dropWhile pyIsSpace).reverse

/-- Python str.strip. -/
def pyStrip (s : String) : String :=
  String.mk (stripChars s.toList)

/-- ASCII lower-casing of one character (the notebook only compares ASCII). -/
def pyLowerChar (c : Char) : Char :=
  if 'A' ≤ c ∧ c ≤ 'Z' then Char.ofNat (c.toNat + 32) else c

/-- Python str.lower restricted to ASCII, which is all the notebook uses. -/
def pyLower (s : String) : String :=
  String.mk (s.toList.map pyLowerChar)

/-- The verdict-parsing expression of check_compliance: the message content
of the first choice, stripped and lower-cased, compared for equality with
the lowercase word true. -/
def parse_verdict (content : String) : Bool :=
  pyLower (pyStrip content) == "true"

/-! HTTP client cells (ingestion and chunking). -/

/-- A requests.Response as far as the notebook observes it: the HTTP status
code and the JSON body that response.json() would parse (a string-keyed
object of flat values). -/
structure HttpResponse where
  status_code : Nat
  jsonBody : List (String × PyVal)
deriving DecidableEq, Repr

/-- Names of the methods a Python dict exposes as attributes.  The entries
of a dict are reached by subscripting, never by attribute access, so attribute
access on a parsed JSON object finds only these method names and raises
AttributeError for any data-field name. -/
def dictMethods : List String :=
  ["keys", "values", "items", "get", "pop", "update", "copy", "clear", "setdefault"]

/-- Attribute access on a parsed JSON object (a Python dict). -/
def dictAttr (_kvs : List (String × PyVal)) (name : String) : Except PyErr PyVal :=
  if name ∈ dictMethods then .ok (.method name) else .error .attributeError

/-- Attribute access on a requests.Response object: it exposes status_code
(and methods such as json, modelled separately by the jsonBody field); it
has no attribute named after a key of the JSON body. -/
def responseAttr (r : HttpResponse) (name : String) : Except PyErr PyVal :=
  if name = "status_code" then .ok (.int r.status_code) else .error .attributeError

/-- The ingestion request cell, as a function of the HTTP response it got:
if response.status_code == 200 then result = response.json() and
markdown_url = result.markdown_url (attribute access on the dict); on any
other status nothing happens and markdown_url is never assigned, which is
modelled as Except.ok Option.none. -/
def ingestCell (response : HttpResponse) : Except PyErr (Option PyVal) :=
  if response.status_code = 200 then
    match dictAttr response.jsonBody "markdown_url" with
    | .ok v => .ok (some v)
    | .error e => .error e
  else
    .ok Option.none

/-- The chunking request cell, as a function of the HTTP response: starts
with chunks = []; if response.status_code == 200 then result =
response.json() and chunks = response.chunks (attribute access on the
Response object itself, not on the parsed JSON); on any other status the
cell finishes with the empty list. -/
def chunkCell (response : HttpResponse) : Except PyErr PyVal :=
  if response.status_code = 200 then
    match responseAttr response "chunks" with
    | .ok v => .ok v
    | .error e => .error e
  else
    .ok (.strList [])

/-! Corpus store and the retrieval query. -/

/-- One row of the compliance_documents table:
id INTEGER, chunk TEXT, vector REAL[1536].  The vector column is filled
asynchronously by the embedding job and is NULL until then.  Embedding
coordinates are modelled over the integers so that every distance
comparison is decidable. -/
structure ComplianceRow where
  id : Int
  chunk : String
  vector : Option (List Int)
deriving DecidableEq, Repr

/-- Squared Euclidean distance, the dist_l2sq_ops operator behind the
lantern_hnsw index used by the ORDER BY vector <-> ... clause. -/
def l2sq (u v : List Int) : Int :=
  ((u.zip v).map (fun p => (p.1 - p.2) ^ 2)).sum

/-- Sort key of a row under ORDER BY vector <-> qv ASC: rows with a NULL
vector have NULL distance and sort last (Postgres default NULLS LAST),
expressed as a lexicographic (null-flag, distance) pair. -/
def rowSortKey (qv : List Int) (r : ComplianceRow) : Int × Int :=
  match r.vector with
  | some v => (0, l2sq v qv)
  | Option.none => (1, 0)

/-- The ORDER BY ordering on rows: lexicographic comparison of sort keys. -/
def rowRel (qv : List Int) (r s : ComplianceRow) : Prop :=
  (rowSortKey qv r).1 < (rowSortKey qv s).1 ∨
    ((rowSortKey qv r).1 = (rowSortKey qv s).1 ∧
      (rowSortKey qv r).2 ≤ (rowSortKey qv s).2)

instance (qv : List Int) : DecidableRel (rowRel qv) :=
  fun _ _ => inferInstanceAs (Decidable (_ ∨ _))

instance (qv : List Int) : IsTotal ComplianceRow (rowRel qv) :=
  ⟨by intro a b; unfold rowRel; omega⟩

instance (qv : List Int) : IsTrans ComplianceRow (rowRel qv) :=
  ⟨by intro a b c; unfold rowRel; omega⟩

/-- The rows produced by the similarity query
SELECT id, vector FROM compliance_documents
ORDER BY vector <-> openai_embedding(model, query) LIMIT 3:
the table sorted by distance to the query embedding, truncated to 3.
Sorting is modelled by insertion sort, a valid implementation of the
ORDER BY contract (ties are implementation-defined). -/
def similar_chunks_rows (embed : String → List Int) (db : List ComplianceRow)
    (query : String) : List ComplianceRow :=
  (List.insertionSort (rowRel (embed query)) db).take 3

/-- The (id, vector) pairs the SELECT id, vector query yields: the second
component is the stored embedding column, not a distance. -/
def similar_chunks_query (embed : String → List Int) (db : List ComplianceRow)
    (query : String) : List (Int × PyVal) :=
  (similar_chunks_rows embed db query).map
    (fun r => (r.id, match r.vector with
      | some v => PyVal.realList v
      | Option.none => PyVal.none))

/-- The records cursor.fetchall() hands back for one query: positional
(id, vector) tuples, exactly what the retrieval loop stores into
similar_chunks[query]. -/
def fetchallRecords (embed : String → List Int) (db : List ComplianceRow)
    (query : String) : List PyRecord :=
  (similar_chunks_rows embed db query).map
    (fun r => PyRecord.tupleRec [PyVal.int r.id,
      match r.vector with
      | some v => PyVal.realList v
      | Option.none => PyVal.none])

/-- Modelled from the spec: RetrievalResult as an ordered sequence of
(ComplianceDocument.id, distance) pairs, the distance being the configured
metric between the stored embedding and the query embedding.  This follows
the wording of the specification and exists only to be compared with
similar_chunks_query, the definition taken from the source. -/
def retrievalResultSpec (embed : String → List Int) (db : List ComplianceRow)
    (query : String) : List (Int × PyVal) :=
  (similar_chunks_rows embed db query).map
    (fun r => (r.id, match r.vector with
      | some v => PyVal.int (l2sq v (embed query))
      | Option.none => PyVal.none))

/-! The compliance judge (check_compliance). -/

/-- The f-string template of check_compliance with the three interpolated
chunk fields and the query spliced in. -/
def promptTemplate (query t1 t2 t3 : String) : String :=
  "\n    Question: " ++ query ++ "\n\n    Relevant texts:\n    1. " ++ t1 ++
    "\n    2. " ++ t2 ++ "\n    3. " ++ t3 ++
    "\n\n    Based on the question and the relevant texts, determine if the response is compliant with ethical and legal standards and company policy.\n    Return only a boolean value: True if compliant, False if not compliant. Do not return any other descriptive text, only the one word.\n    "

/-- Building the prompt of check_compliance: the f-string evaluates the id
subscript of chunks[0], of chunks[1] and of chunks[2] in that order, each a
list indexing followed by a string-key subscript, either of which can
raise. -/
def buildPrompt (query : String) (chunks : List PyRecord) : Except PyErr String :=
  match listIndex chunks 0 with
  | .error e => .error e
  | .ok c0 =>
    match c0.subscriptStr "id" with
    | .error e => .error e
    | .ok v0 =>
      match listIndex chunks 1 with
      | .error e => .error e
      | .ok c1 =>
        match c1.subscriptStr "id" with
        | .error e => .error e
        | .ok v1 =>
          match listIndex chunks 2 with
          | .error e => .error e
          | .ok c2 =>
            match c2.subscriptStr "id" with
            | .error e => .error e
            | .ok v2 =>
              .ok (promptTemplate query (pyToStr v0) (pyToStr v1) (pyToStr v2))

/-- One event of the judge: the chat-completion request it sends. -/
inductive JudgeEvent
  | llmCall (prompt : String)
deriving DecidableEq, Repr

/-- check_compliance, instrumented with the list of LLM calls it makes.
The LLM is an oracle from the user prompt to the returned message content
(the system message and model name are fixed in the source).  The prompt is
built first; only if that succeeds is the LLM contacted, and the reply is
parsed by parse_verdict. -/
def check_compliance_run (llm : String → String) (query : String)
    (chunks : List PyRecord) : Except PyErr Bool × List JudgeEvent :=
  match buildPrompt query chunks with
  | .error e => (.error e, [])
  | .ok prompt =>
      let content := llm prompt
      (.ok (parse_verdict content), [.llmCall prompt])

/-- check_compliance as the caller sees it: the verdict or the raised
exception. -/
def check_compliance (llm : String → String) (query : String)
    (chunks : List PyRecord) : Except PyErr Bool :=
  (check_compliance_run llm query chunks).1

/-! Python dict bookkeeping (similar_chunks and compliance_results). -/

/-- Insertion into a Python dict modelled as a key-unique association list:
an existing key keeps its position and gets the new value, a new key is
appended at the end (CPython insertion order). -/
def dictInsert {α : Type} : List (String × α) → String → α → List (String × α)
  | [], k, v => [(k, v)]
  | (k', v') :: rest, k, v =>
      if k' = k then (k, v) :: rest else (k', v') :: dictInsert rest k v

/-- Lookup in the association-list dict model. -/
def dictLookup {α : Type} : List (String × α) → String → Option α
  | [], _ => Option.none
  | (k', v') :: rest, k => if k' = k then some v' else dictLookup rest k

/-- Keys of the dict, in insertion order. -/
def dictKeys {α : Type} (d : List (String × α)) : List String :=
  d.map Prod.fst

/-- The retrieval loop: similar_chunks starts as an empty dict; for each
query of query_list the loop executes the similarity query and stores
cursor.fetchall() under similar_chunks[query]. -/
def similar_chunks_dict (embed : String → List Int) (db : List ComplianceRow)
    (query_list : List String) : List (String × List PyRecord) :=
  query_list.foldl (fun d q => dictInsert d q (fetchallRecords embed db q)) []

/-- The judgment loop: compliance_results starts as an empty dict; for each
query-chunks item of similar_chunks the loop computes
check_compliance(query, chunks) and stores the verdict under
compliance_results[query].  An exception raised inside check_compliance is
uncaught: the loop aborts at that item, the assignment for it never
happens, and the dict keeps only the entries of the iterations completed
so far.  The first component reports whether the loop ran to completion or
which exception aborted it; the second is the final dict state. -/
def compliance_results_loop (llm : String → String) :
    List (String × List PyRecord) → List (String × Bool) →
    Except PyErr Unit × List (String × Bool)
  | [], acc => (.ok (), acc)
  | (q, chunks) :: rest, acc =>
      match check_compliance llm q chunks with
      | .error e => (.error e, acc)
      | .ok b => compliance_results_loop llm rest (dictInsert acc q b)

/-- The judgment loop of the application, run over the retrieval dict the
first loop produced, starting from the empty compliance_results dict. -/
def compliance_results_run (llm : String → String) (embed : String → List Int)
    (db : List ComplianceRow) (query_list : List String) :
    Except PyErr Unit × List (String × Bool) :=
  compliance_results_loop llm (similar_chunks_dict embed db query_list) []

/-! Control-flow traces. -/

/-- Observable per-query steps of the application: executing the similarity
query for a text, and judging a text. -/
inductive PipelineEvent
  | retrieveEv (q : String)
  | judgeEv (q : String)
deriving DecidableEq, Repr

/-- Whether an event is a judgment step. -/
def PipelineEvent.isJudge : PipelineEvent → Bool
  | .judgeEv _ => true
  | .retrieveEv _ => false

/-- The order in which the application performs its per-query steps: the
first loop runs every retrieval in input order, then the second loop runs
one judgment per distinct query, in first-insertion order of the
similar_chunks dict. -/
def workflow_trace (embed : String → List Int) (db : List ComplianceRow)
    (query_list : List String) : List PipelineEvent :=
  query_list.map PipelineEvent.retrieveEv ++
    (similar_chunks_dict embed db query_list).map (fun p => PipelineEvent.judgeEv p.1)

/-! The SQL statements the notebook actually executes. -/

/-- The kinds of SQL statements issued by the notebook cells. -/
inductive SqlOp
  | createTable (table : String) (columns : List String)
  | setConfig (setting : String)
  | addEmbeddingJob (table srcCol dstCol model : String)
  | insertRows (table : String)
  | selectNearest (table : String) (limit : Nat)
deriving DecidableEq, Repr

/-- Whether a statement inserts rows. -/
def SqlOp.isInsert : SqlOp → Bool
  | .insertRows _ => true
  | _ => false

/-- Every SQL statement the notebook executes, in order, for a given query
list: CREATE TABLE compliance_documents, the two configuration statements,
add_embedding_job, and one LIMIT-3 similarity SELECT per query.  (The
CREATE INDEX statement appears only inside a markdown cell and is never
executed; no cell issues an INSERT.) -/
def notebook_sql_ops (query_list : List String) : List SqlOp :=
  [SqlOp.createTable "compliance_documents" ["id", "chunk", "vector"],
   SqlOp.setConfig "lantern_extras.enable_daemon",
   SqlOp.setConfig "lantern_extras.openai_token",
   SqlOp.addEmbeddingJob "compliance_documents" "chunk" "vector"
     "openai/text-embedding-3-small"] ++
    query_list.map (fun _ => SqlOp.selectNearest "compliance_documents" 3)

/-! Concrete instances used by counterexamples and witnesses. -/

/-- A chunk set of three dict-shaped records carrying an id key, the shape
under which prompt construction succeeds. -/
def goodChunks : List PyRecord :=
  [PyRecord.dictRec [("id", PyVal.str "t1")],
   PyRecord.dictRec [("id", PyVal.str "t2")],
   PyRecord.dictRec [("id", PyVal.str "t3")]]

/-- An embedding oracle mapping every text to the empty vector. -/
def embedNil : String → List Int := fun _ => []

/-- An embedding oracle mapping every text to the vector [0]. -/
def embed0 : String → List Int := fun _ => [0]

/-- A one-row corpus. -/
def dbOne : List ComplianceRow := [⟨1, "chunk one", some [0]⟩]

/-- A three-row corpus with embedded vectors at distances 0, 9 and 25 from
the query vector [0]. -/
def db3 : List ComplianceRow :=
  [⟨1, "c1", some [0]⟩, ⟨2, "c2", some [3]⟩, ⟨3, "c3", some [5]⟩]

/-! Helper lemmas. -/

/-- An Except whose isOk flag is false is an error. -/
theorem isOk_false_exists {ε α : Type} {x : Except ε α} (h : x.isOk = false) :
    ∃ e, x = .error e := by
  cases x with
  | error e => exact ⟨e, rfl⟩
  | ok v => simp [Except.isOk, Except.toBool] at h

/-- An Except whose isOk flag is true carries a value. -/
theorem isOk_true_exists {ε α : Type} {x : Except ε α} (h : x.isOk = true) :
    ∃ v, x = .ok v := by
  cases x with
  | error e => simp [Except.isOk, Except.toBool] at h
  | ok v => exact ⟨v, rfl⟩

/-- Prompt construction fails whenever fewer than three chunk records are
supplied: one of the three indexed accesses cannot succeed. -/
theorem buildPrompt_short (q : String) (chunks : List PyRecord)
    (h : chunks.length < 3) : (buildPrompt q chunks).isOk = false := by
  have h2 : chunks[2]? = Option.none := List.getElem?_eq_none (by omega)
  unfold buildPrompt listIndex
  rw [h2]
  split
  · rfl
  · split
    · rfl
    · split
      · rfl
      · split
        · rfl
        · rfl

/-- Prompt construction fails whenever the first record is a positional
tuple: the string-key subscript on it raises TypeError. -/
theorem buildPrompt_tupleRec_head (q : String) (fs : List PyVal)
    (rest : List PyRecord) :
    (buildPrompt q (PyRecord.tupleRec fs :: rest)).isOk = false := by
  simp [buildPrompt, listIndex, List.getElem?_cons_zero, PyRecord.subscriptStr,
    Except.isOk, Except.toBool]

/-- Length of the similarity query result: the LIMIT-3 truncation of the
sorted corpus. -/
theorem similar_chunks_query_length (e : String → List Int)
    (db : List ComplianceRow) (q : String) :
    (similar_chunks_query e db q).length = min 3 db.length := by
  unfold similar_chunks_query similar_chunks_rows
  rw [List.length_map, List.length_take, List.length_insertionSort]

/-- The retrieved rows are pairwise ordered by the ORDER BY relation. -/
theorem similar_chunks_rows_sorted (e : String → List Int)
    (db : List ComplianceRow) (q : String) :
    List.Pairwise (rowRel (e q)) (similar_chunks_rows e db q) := by
  unfold similar_chunks_rows
  exact List.Pairwise.sublist (List.take_sublist _ _)
    (List.sorted_insertionSort (rowRel (e q)) db)

/-- Every retrieved row comes from the corpus. -/
theorem similar_chunks_rows_mem (e : String → List Int)
    (db : List ComplianceRow) (q : String) :
    ∀ r ∈ similar_chunks_rows e db q, r ∈ db := by
  intro r hr
  unfold similar_chunks_rows at hr
  exact (List.mem_insertionSort (rowRel (e q))).mp
    ((List.take_sublist _ _).mem hr)

/-- A relation that holds between any two elements holds pairwise on any
list. -/
theorem pairwise_of_all {α : Type} {R : α → α → Prop} (h : ∀ a b, R a b) :
    ∀ l : List α, l.Pairwise R
  | [] => List.Pairwise.nil
  | x :: xs => List.Pairwise.cons (fun y _ => h x y) (pairwise_of_all h xs)

/-! Claim C1: verdict parsing of the compliance judge. -/

/-- Claim C1, corrected.  For every fixed LLM response string the verdict
parsing of check_compliance is deterministic and matches the response
case- and whitespace-insensitively against the word true: whenever the
prompt is built successfully, the returned verdict is exactly
parse_verdict of the response, with responses True and TRUE-plus-space
parsing to the verdict true and the non-matching response Maybe parsing to
the verdict false (silently coerced, not a ParseError). -/
theorem judge_parsing_amended (q : String) (chunks : List PyRecord) (resp : String)
    (h : (buildPrompt q chunks).isOk = true) :
    check_compliance (fun _ => resp) q chunks = .ok (parse_verdict resp) ∧
    parse_verdict "True" = true ∧ parse_verdict "TRUE " = true ∧
    parse_verdict "Maybe" = false := by
  obtain ⟨p, hp⟩ := isOk_true_exists h
  refine ⟨?_, by decide, by decide, by decide⟩
  unfold check_compliance check_compliance_run
  rw [hp]

/-- Witness for judge_parsing_amended at a concrete chunk set and the
response TRUE-plus-space. -/
theorem judge_parsing_amended_witness :
    check_compliance (fun _ => "TRUE ") "q" goodChunks = .ok (parse_verdict "TRUE ") :=
  (judge_parsing_amended "q" goodChunks "TRUE " (by decide)).1

/-- Counterexample to claim C1 as stated: a mocked LLM answering Maybe
yields the verdict false, not a ParseError. -/
theorem judge_coerces_nonmatching_to_false :
    check_compliance (fun _ => "Maybe") "q" goodChunks = .ok false ∧
    check_compliance (fun _ => "Maybe") "q" goodChunks ≠ .error .parseError := by
  exact ⟨rfl, by decide⟩

/-! Claim C3: judge behavior on fewer than three retrieved records. -/

/-- Claim C3, corrected.  For every call of the judge with fewer than three
records the run errors (the indexing inside prompt construction raises)
and the LLM is never contacted (the event list is empty); there is however
no explicit DataError validation before prompt construction begins. -/
theorem judge_short_input_errors (llm : String → String) (q : String)
    (chunks : List PyRecord) (h : chunks.length < 3) :
    (check_compliance_run llm q chunks).1.isOk = false ∧
    (check_compliance_run llm q chunks).2 = [] := by
  obtain ⟨e, he⟩ := isOk_false_exists (buildPrompt_short q chunks h)
  unfold check_compliance_run
  rw [he]
  exact ⟨rfl, rfl⟩

/-- Witness for judge_short_input_errors on the empty retrieval result. -/
theorem judge_short_input_errors_witness :
    (check_compliance_run (fun _ => "True") "q" []).1.isOk = false ∧
    (check_compliance_run (fun _ => "True") "q" []).2 = [] :=
  judge_short_input_errors (fun _ => "True") "q" [] (by decide)

/-- Counterexample to claim C3 as stated: on an empty retrieval result the
judge raises IndexError from the chunk indexing, which is not the
DataError the claim requires. -/
theorem judge_short_input_raises_indexError :
    check_compliance_run (fun _ => "True") "q" [] = (.error .indexError, []) ∧
    PyErr.indexError ≠ PyErr.dataError := ⟨rfl, by decide⟩

/-! Claim C8: record-shape mismatch between retrieval and judge. -/

/-- Claim C8, confirmed.  Every record the retrieval loop stores is a
positional (id, vector) tuple exactly as fetchall returns it, and on any
non-empty retrieval result the prompt construction of the judge fails (the
string-key subscript on a tuple raises TypeError), so check_compliance
cannot succeed on the record type the pipeline actually supplies. -/
theorem retrieval_records_break_judge (e : String → List Int)
    (db : List ComplianceRow) (q q2 : String) (llm : String → String)
    (h : fetchallRecords e db q ≠ []) :
    (∀ r ∈ fetchallRecords e db q, ∃ fs, r = PyRecord.tupleRec fs) ∧
    (buildPrompt q2 (fetchallRecords e db q)).isOk = false ∧
    (check_compliance llm q2 (fetchallRecords e db q)).isOk = false := by
  have hshape : ∀ r ∈ fetchallRecords e db q, ∃ fs, r = PyRecord.tupleRec fs := by
    intro r hr
    unfold fetchallRecords at hr
    obtain ⟨row, _, hrow⟩ := List.mem_map.mp hr
    exact ⟨_, hrow.symm⟩
  have hbp : (buildPrompt q2 (fetchallRecords e db q)).isOk = false := by
    cases hrows : similar_chunks_rows e db q with
    | nil => exact absurd (by unfold fetchallRecords; rw [hrows]; rfl) h
    | cons r rs =>
      have hfr : fetchallRecords e db q = PyRecord.tupleRec [PyVal.int r.id,
          match r.vector with
          | some v => PyVal.realList v
          | Option.none => PyVal.none] ::
          (rs.map (fun r => PyRecord.tupleRec [PyVal.int r.id,
            match r.vector with
            | some v => PyVal.realList v
            | Option.none => PyVal.none])) := by
        unfold fetchallRecords; rw [hrows]; rfl
      rw [hfr]
      exact buildPrompt_tupleRec_head q2 _ _
  obtain ⟨er, her⟩ := isOk_false_exists hbp
  refine ⟨hshape, hbp, ?_⟩
  unfold check_compliance check_compliance_run
  rw [her]
  rfl

/-- Witness for retrieval_records_break_judge on a one-row corpus. -/
theorem retrieval_records_break_judge_witness :
    (∀ r ∈ fetchallRecords embedNil dbOne "q", ∃ fs, r = PyRecord.tupleRec fs) ∧
    (buildPrompt "q" (fetchallRecords embedNil dbOne "q")).isOk = false ∧
    (check_compliance (fun _ => "True") "q" (fetchallRecords embedNil dbOne "q")).isOk = false :=
  retrieval_records_break_judge embedNil dbOne "q" "q" (fun _ => "True") (by decide)

/-! Claim C2: shape and ordering of the retrieval result. -/

/-- Counterexample to claim C2 as stated: on a concrete three-row corpus
the query returns (id, stored-embedding-vector) pairs, which differ from
the (id, distance) pairs the claim describes (built by
retrievalResultSpec, the definition that follows the wording of the
specification). -/
theorem retrieval_not_distance_pairs :
    similar_chunks_query embed0 db3 "q" =
      [(1, PyVal.realList [0]), (2, PyVal.realList [3]), (3, PyVal.realList [5])] ∧
    retrievalResultSpec embed0 db3 "q" =
      [(1, PyVal.int 0), (2, PyVal.int 9), (3, PyVal.int 25)] ∧
    similar_chunks_query embed0 db3 "q" ≠ retrievalResultSpec embed0 db3 "q" := by
  exact ⟨by decide, by decide, by decide⟩

/-- Claim C2, corrected.  For every query the retrieval returns an ordered
sequence of pairs of length min(3, corpus size), ordered ascending by the
configured distance (squared Euclidean, NULL vectors last), with each
returned row taken from the corpus; the second pair component however is
the stored embedding vector column, not the distance. -/
theorem retrieval_returns_id_vector_pairs (e : String → List Int)
    (db : List ComplianceRow) (q : String) :
    (similar_chunks_query e db q).length = min 3 db.length ∧
    List.Pairwise (rowRel (e q)) (similar_chunks_rows e db q) ∧
    (∀ r ∈ similar_chunks_rows e db q, r ∈ db) ∧
    similar_chunks_query e db q =
      (similar_chunks_rows e db q).map (fun r => (r.id,
        match r.vector with
        | some v => PyVal.realList v
        | Option.none => PyVal.none)) :=
  ⟨similar_chunks_query_length e db q, similar_chunks_rows_sorted e db q,
    similar_chunks_rows_mem e db q, rfl⟩

/-! Claim C6: result length bounds and the empty corpus. -/

/-- Claim C6, confirmed.  For every corpus and query the retrieval result
length never exceeds 3 and never exceeds the corpus size, and on the empty
corpus retrieval returns the empty sequence rather than an error. -/
theorem retrieval_length_bounded (e : String → List Int)
    (db : List ComplianceRow) (q : String) :
    (similar_chunks_query e db q).length ≤ 3 ∧
    (similar_chunks_query e db q).length ≤ db.length ∧
    similar_chunks_query e [] q = [] := by
  have hl := similar_chunks_query_length e db q
  exact ⟨by omega, by omega, rfl⟩

/-! Claim C4: behavior of the HTTP client cells on non-2xx responses. -/

/-- Counterexample to claim C4 as stated: on a concrete 500 response
neither client fails; the ingestion cell finishes normally with
markdown_url never assigned and the chunking cell finishes normally with
the empty chunk list. -/
theorem non_200_no_error_raised :
    ingestCell ⟨500, []⟩ = .ok Option.none ∧
    chunkCell ⟨500, []⟩ = .ok (.strList []) := ⟨rfl, rfl⟩

/-- Claim C4, corrected.  For every response whose status is not 200 (hence
for every non-2xx response) the ingestion cell raises no error and leaves
markdown_url unassigned, and the chunking cell raises no error and
continues with the empty chunk list: no ExternalServiceError or any other
failure is surfaced to the caller. -/
theorem non_200_clients_continue_silently (r : HttpResponse)
    (h : r.status_code ≠ 200) :
    ingestCell r = .ok Option.none ∧ chunkCell r = .ok (.strList []) := by
  unfold ingestCell chunkCell
  rw [if_neg h, if_neg h]
  exact ⟨rfl, rfl⟩

/-- Witness for non_200_clients_continue_silently at status 404. -/
theorem non_200_clients_continue_silently_witness :
    ingestCell ⟨404, []⟩ = .ok Option.none ∧ chunkCell ⟨404, []⟩ = .ok (.strList []) :=
  non_200_clients_continue_silently ⟨404, []⟩ (by decide)

/-! Claim C9: extraction on the success path. -/

/-- Claim C9, confirmed.  Even on a 200 response shaped exactly as the JSON
contracts prescribe, the ingestion cell raises AttributeError because it
reads markdown_url as an attribute of the parsed dict, and the chunking
cell raises AttributeError because it reads chunks as an attribute of the
raw Response object; neither access yields the contracted value. -/
theorem success_path_attribute_errors (u : String) (cs : List String) :
    ingestCell ⟨200, [("markdown_url", PyVal.str u)]⟩ = .error .attributeError ∧
    chunkCell ⟨200, [("chunks", PyVal.strList cs)]⟩ = .error .attributeError :=
  ⟨rfl, rfl⟩

/-! Claim C5: the missing bulk load. -/

/-- Claim C5, code bug.  The notebook never executes an INSERT into
compliance_documents: the filtered list of insert statements among
everything it executes is empty, for every query list and in particular
for a concrete one-query run, so no Corpus Store bulk load precedes
retrieval. -/
theorem notebook_executes_no_insert (query_list : List String) :
    (notebook_sql_ops query_list).filter SqlOp.isInsert = [] ∧
    (notebook_sql_ops ["Can you explain the credit assessment process?"]).filter
      SqlOp.isInsert = [] := by
  constructor
  · rw [List.filter_eq_nil_iff]
    intro a ha
    unfold notebook_sql_ops at ha
    rcases List.mem_append.mp ha with h | h
    · fin_cases h <;> decide
    · obtain ⟨x, _, hx⟩ := List.mem_map.mp h
      rw [← hx]
      decide
  · decide

/-! Claim C7: per-query sequencing. -/

/-- Counterexample to claim C7 as stated: with two queries a and b, the
trace retrieves b before judging a, so the earlier query a has not
completed its judgment before processing of the later query b begins. -/
theorem later_retrieval_precedes_earlier_judgment :
    workflow_trace embedNil [] ["a", "b"] =
      [PipelineEvent.retrieveEv "a", PipelineEvent.retrieveEv "b",
       PipelineEvent.judgeEv "a", PipelineEvent.judgeEv "b"] ∧
    (workflow_trace embedNil [] ["a", "b"]).indexOf (PipelineEvent.retrieveEv "b") <
      (workflow_trace embedNil [] ["a", "b"]).indexOf (PipelineEvent.judgeEv "a") :=
  ⟨by decide, by decide⟩

/-- Claim C7, corrected.  Execution is strictly sequential and
single-threaded but two-phase rather than per-query: in the event trace no
judgment is ever followed by a retrieval (every retrieval completes before
any judgment begins), and the retrieval phase handles the queries exactly
in input order. -/
theorem workflow_two_phase (e : String → List Int) (db : List ComplianceRow)
    (qs : List String) :
    (workflow_trace e db qs).Pairwise
      (fun a b => a.isJudge = true → b.isJudge = true) ∧
    (workflow_trace e db qs).filter (fun ev => !ev.isJudge) =
      qs.map PipelineEvent.retrieveEv := by
  constructor
  · unfold workflow_trace
    rw [List.pairwise_append]
    refine ⟨?_, ?_, ?_⟩
    · rw [List.pairwise_map]
      exact pairwise_of_all (fun a b hab => absurd hab (by simp [PipelineEvent.isJudge])) qs
    · rw [List.pairwise_map]
      exact pairwise_of_all (fun a b _ => rfl) _
    · intro a _ b hb _
      obtain ⟨p, _, hp⟩ := List.mem_map.mp hb
      rw [← hp]
      rfl
  · unfold workflow_trace
    rw [List.filter_append, List.filter_map, List.filter_map]
    have h1 : List.filter ((fun ev => !PipelineEvent.isJudge ev) ∘
        PipelineEvent.retrieveEv) qs = qs := by
      rw [List.filter_eq_self]
      intro a _
      rfl
    have h2 : List.filter ((fun ev => !PipelineEvent.isJudge ev) ∘
        (fun p => PipelineEvent.judgeEv p.1)) (similar_chunks_dict e db qs) = [] := by
      rw [List.filter_eq_nil_iff]
      intro a _
      simp [PipelineEvent.isJudge]
    rw [h1, h2, List.map_nil, List.append_nil]

/-! Dict bookkeeping lemmas for claim C10. -/

/-- Looking up the just-inserted key finds the new value. -/
theorem dictLookup_insert_self {α : Type} (d : List (String × α)) (k : String) (v : α) :
    dictLookup (dictInsert d k v) k = some v := by
  induction d with
  | nil => simp [dictInsert, dictLookup]
  | cons p rest ih =>
    obtain ⟨k', v'⟩ := p
    by_cases h : k' = k
    · simp [dictInsert, h, dictLookup]
    · simp [dictInsert, h, dictLookup, ih]

/-- Insertion does not disturb lookups of other keys. -/
theorem dictLookup_insert_other {α : Type} (d : List (String × α)) (k k2 : String)
    (v : α) (h : k2 ≠ k) : dictLookup (dictInsert d k v) k2 = dictLookup d k2 := by
  induction d with
  | nil => simp [dictInsert, dictLookup, Ne.symm h]
  | cons p rest ih =>
    obtain ⟨k', v'⟩ := p
    by_cases hk : k' = k
    · subst hk
      simp [dictInsert, dictLookup, Ne.symm h]
    · simp [dictInsert, hk, dictLookup, ih]

/-- Lookup after folding key-dependent insertions over a list of keys:
the last write for the key wins, and untouched keys fall through. -/
theorem dictLookup_fold {α : Type} (f : String → α) (qs : List String) :
    ∀ (d : List (String × α)) (k : String),
      dictLookup (qs.foldl (fun d q => dictInsert d q (f q)) d) k =
        if k ∈ qs then some (f k) else dictLookup d k := by
  induction qs with
  | nil => intro d k; simp
  | cons q rest ih =>
    intro d k
    rw [List.foldl_cons, ih]
    by_cases hk : k ∈ rest
    · simp [hk, List.mem_cons]
    · by_cases hq : k = q
      · subst hq
        simp [hk, dictLookup_insert_self]
      · simp [hk, hq, dictLookup_insert_other d q k (f q) hq]

/-- Keys after an insertion: unchanged for an existing key, appended for a
fresh key. -/
theorem dictKeys_insert {α : Type} (d : List (String × α)) (k : String) (v : α) :
    dictKeys (dictInsert d k v) =
      if k ∈ dictKeys d then dictKeys d else dictKeys d ++ [k] := by
  induction d with
  | nil => simp [dictInsert, dictKeys]
  | cons p rest ih =>
    obtain ⟨k', v'⟩ := p
    by_cases h : k' = k
    · subst h
      simp [dictInsert, dictKeys, List.mem_cons]
    · have hins : dictInsert ((k', v') :: rest) k v = (k', v') :: dictInsert rest k v := by
        simp [dictInsert, h]
      have hcons : dictKeys ((k', v') :: rest) = k' :: dictKeys rest := rfl
      have hcons2 : dictKeys ((k', v') :: dictInsert rest k v) =
          k' :: dictKeys (dictInsert rest k v) := rfl
      rw [hins, hcons2, hcons, ih]
      by_cases hm : k ∈ dictKeys rest
      · rw [if_pos hm, if_pos (List.mem_cons.mpr (Or.inr hm))]
      · rw [if_neg hm, if_neg (fun hc => by
          rcases List.mem_cons.mp hc with h1 | h2
          · exact h h1.symm
          · exact hm h2)]
        rfl

/-- Key membership after an insertion. -/
theorem mem_dictKeys_insert {α : Type} (d : List (String × α)) (q k : String) (v : α) :
    k ∈ dictKeys (dictInsert d q v) ↔ k ∈ dictKeys d ∨ k = q := by
  rw [dictKeys_insert]
  split
  · constructor
    · exact Or.inl
    · rintro (h | rfl)
      · exact h
      · assumption
  · simp [List.mem_append]

/-- Insertion preserves key uniqueness. -/
theorem dictKeys_insert_nodup {α : Type} (d : List (String × α)) (k : String) (v : α)
    (h : (dictKeys d).Nodup) : (dictKeys (dictInsert d k v)).Nodup := by
  rw [dictKeys_insert]
  split
  · exact h
  · rename_i hk
    simp [List.nodup_append, h, hk]

/-- Key membership after folding insertions over a list of keys. -/
theorem dictKeys_fold_mem {α : Type} (f : String → α) (qs : List String) :
    ∀ (d : List (String × α)) (k : String),
      k ∈ dictKeys (qs.foldl (fun d q => dictInsert d q (f q)) d) ↔
        k ∈ dictKeys d ∨ k ∈ qs := by
  induction qs with
  | nil => intro d k; simp
  | cons q rest ih =>
    intro d k
    rw [List.foldl_cons, ih, mem_dictKeys_insert, List.mem_cons]
    tauto

/-- Folding insertions preserves key uniqueness. -/
theorem dictKeys_fold_nodup {α : Type} (f : String → α) (qs : List String) :
    ∀ d : List (String × α), (dictKeys d).Nodup →
      (dictKeys (qs.foldl (fun d q => dictInsert d q (f q)) d)).Nodup := by
  induction qs with
  | nil => intro d h; exact h
  | cons q rest ih =>
    intro d h
    rw [List.foldl_cons]
    exact ih _ (dictKeys_insert_nodup d q (f q) h)

/-- Keys of the retrieval dict are pairwise distinct. -/
theorem similar_chunks_dict_nodup (e : String → List Int) (db : List ComplianceRow)
    (qs : List String) : (dictKeys (similar_chunks_dict e db qs)).Nodup := by
  unfold similar_chunks_dict
  exact dictKeys_fold_nodup (fetchallRecords e db) qs [] (by simp [dictKeys])

/-- A text is a key of the retrieval dict exactly when it occurs in the
query list. -/
theorem similar_chunks_dict_mem (e : String → List Int) (db : List ComplianceRow)
    (qs : List String) (k : String) :
    k ∈ dictKeys (similar_chunks_dict e db qs) ↔ k ∈ qs := by
  unfold similar_chunks_dict
  rw [dictKeys_fold_mem (fetchallRecords e db) qs [] k]
  simp [dictKeys]

/-- The retrieval dict stores, for every occurring text, the fetchall
records of that text (the last assignment for the text). -/
theorem similar_chunks_dict_lookup (e : String → List Int) (db : List ComplianceRow)
    (qs : List String) (k : String) :
    dictLookup (similar_chunks_dict e db qs) k =
      if k ∈ qs then some (fetchallRecords e db k) else Option.none := by
  unfold similar_chunks_dict
  rw [dictLookup_fold (fetchallRecords e db) qs [] k]
  rfl

/-- Every pair of an insertion result is either an old pair or the
inserted one. -/
theorem mem_dictInsert {α : Type} (d : List (String × α)) (k : String) (v : α)
    (p : String × α) (h : p ∈ dictInsert d k v) : p ∈ d ∨ p = (k, v) := by
  induction d with
  | nil =>
    simp [dictInsert] at h
    exact Or.inr h
  | cons hd rest ih =>
    obtain ⟨k', v'⟩ := hd
    by_cases hk : k' = k
    · rw [show dictInsert ((k', v') :: rest) k v = (k, v) :: rest from by
        simp [dictInsert, hk]] at h
      rcases List.mem_cons.mp h with h1 | h1
      · exact Or.inr h1
      · exact Or.inl (List.mem_cons.mpr (Or.inr h1))
    · rw [show dictInsert ((k', v') :: rest) k v = (k', v') :: dictInsert rest k v from by
        simp [dictInsert, hk]] at h
      rcases List.mem_cons.mp h with h1 | h1
      · exact Or.inl (List.mem_cons.mpr (Or.inl h1))
      · rcases ih h1 with h2 | h2
        · exact Or.inl (List.mem_cons.mpr (Or.inr h2))
        · exact Or.inr h2

/-- After folding key-dependent insertions, every stored value is the one
computed from its own key, provided that already held of the start dict. -/
theorem foldl_dictInsert_values {α : Type} (f : String → α) (qs : List String) :
    ∀ d : List (String × α), (∀ p ∈ d, p.2 = f p.1) →
      ∀ p ∈ qs.foldl (fun d q => dictInsert d q (f q)) d, p.2 = f p.1 := by
  induction qs with
  | nil => intro d hd p hp; exact hd p hp
  | cons q rest ih =>
    intro d hd p hp
    rw [List.foldl_cons] at hp
    refine ih (dictInsert d q (f q)) ?_ p hp
    intro p2 hp2
    rcases mem_dictInsert d q (f q) p2 hp2 with h | h
    · exact hd p2 h
    · rw [h]

/-- Every value stored in the retrieval dict is the fetchall record list
of its own key. -/
theorem similar_chunks_dict_values (e : String → List Int) (db : List ComplianceRow)
    (qs : List String) :
    ∀ p ∈ similar_chunks_dict e db qs, p.2 = fetchallRecords e db p.1 := by
  unfold similar_chunks_dict
  exact foldl_dictInsert_values (fetchallRecords e db) qs [] (by intro p hp; cases hp)

/-- A non-empty query list yields a non-empty retrieval dict. -/
theorem similar_chunks_dict_ne_nil (e : String → List Int) (db : List ComplianceRow)
    (qs : List String) (h : qs ≠ []) : similar_chunks_dict e db qs ≠ [] := by
  intro hc
  cases qs with
  | nil => exact h rfl
  | cons q rest =>
    have hq : q ∈ dictKeys (similar_chunks_dict e db (q :: rest)) :=
      (similar_chunks_dict_mem e db (q :: rest) q).mpr (List.mem_cons_self _ _)
    rw [hc] at hq
    cases hq

/-- A failed prompt construction makes the whole judge call fail. -/
theorem check_compliance_isOk_false_of_buildPrompt (llm : String → String)
    (q : String) (chunks : List PyRecord) (h : (buildPrompt q chunks).isOk = false) :
    (check_compliance llm q chunks).isOk = false := by
  obtain ⟨e2, he⟩ := isOk_false_exists h
  unfold check_compliance check_compliance_run
  rw [he]
  rfl

/-- Prompt construction fails on every fetchall record list: an empty one
is too short and a non-empty one starts with a positional tuple. -/
theorem buildPrompt_fetchall_fails (e : String → List Int) (db : List ComplianceRow)
    (q q2 : String) : (buildPrompt q2 (fetchallRecords e db q)).isOk = false := by
  cases hrows : similar_chunks_rows e db q with
  | nil =>
    have hfr : fetchallRecords e db q = [] := by
      unfold fetchallRecords; rw [hrows]; rfl
    rw [hfr]
    exact buildPrompt_short q2 [] (by decide)
  | cons r rs =>
    have hfr : fetchallRecords e db q = PyRecord.tupleRec [PyVal.int r.id,
        match r.vector with
        | some v => PyVal.realList v
        | Option.none => PyVal.none] ::
        (rs.map (fun r => PyRecord.tupleRec [PyVal.int r.id,
          match r.vector with
          | some v => PyVal.realList v
          | Option.none => PyVal.none])) := by
      unfold fetchallRecords; rw [hrows]; rfl
    rw [hfr]
    exact buildPrompt_tupleRec_head q2 _ _

/-- The judgment loop over any items whose values come from fetchall: it
either has nothing to do or aborts at its very first item with an uncaught
exception, leaving the dict exactly as it started. -/
theorem compliance_results_loop_aborts (llm : String → String) (e : String → List Int)
    (db : List ComplianceRow) (items : List (String × List PyRecord))
    (acc : List (String × Bool))
    (hvals : ∀ p ∈ items, p.2 = fetchallRecords e db p.1) :
    (compliance_results_loop llm items acc).2 = acc ∧
    (items ≠ [] → (compliance_results_loop llm items acc).1.isOk = false) := by
  cases items with
  | nil => exact ⟨rfl, fun hc => absurd rfl hc⟩
  | cons p rest =>
    obtain ⟨q, chunks⟩ := p
    have hchunks : chunks = fetchallRecords e db q :=
      hvals (q, chunks) (List.mem_cons_self _ _)
    have hfail : (check_compliance llm q chunks).isOk = false := by
      rw [hchunks]
      exact check_compliance_isOk_false_of_buildPrompt llm q _
        (buildPrompt_fetchall_fails e db q q)
    obtain ⟨err, herr⟩ := isOk_false_exists hfail
    unfold compliance_results_loop
    rw [herr]
    exact ⟨rfl, fun _ => rfl⟩

/-! Claim C10: the final report under duplicate query texts. -/

/-- Counterexample to claim C10 as stated: on a dataset whose two rows both
carry the text a, the judgment loop aborts at its first item with the
uncaught TypeError from the tuple records, so the final report contains
zero entries for that text, not a single one. -/
theorem report_never_produced :
    compliance_results_run (fun _ => "True") embedNil dbOne ["a", "a"] =
      (.error .typeError, []) ∧
    (dictKeys (compliance_results_run (fun _ => "True") embedNil dbOne ["a", "a"]).2).count
      "a" = 0 := ⟨by decide, by decide⟩

/-- Claim C10, corrected.  The retrieval results are keyed by the query
text in a dictionary, so an input with two rows of identical text yields a
single retrieval entry for that text, storing the retrieval of the last
such row; the compliance loop is likewise keyed by text, but on every
non-empty query list it aborts at its first item with an uncaught
exception (the judge cannot succeed on the records the pipeline supplies),
so the final compliance report remains empty rather than containing one
verdict per distinct text. -/
theorem report_keyed_by_text_amended (llm : String → String) (e : String → List Int)
    (db : List ComplianceRow) (qs : List String) (text : String) :
    (dictKeys (similar_chunks_dict e db qs)).count text =
      (if text ∈ qs then 1 else 0) ∧
    dictLookup (similar_chunks_dict e db qs) text =
      (if text ∈ qs then some (fetchallRecords e db text) else Option.none) ∧
    (compliance_results_run llm e db qs).2 = [] ∧
    (qs ≠ [] → (compliance_results_run llm e db qs).1.isOk = false) := by
  have habort := compliance_results_loop_aborts llm e db
    (similar_chunks_dict e db qs) [] (similar_chunks_dict_values e db qs)
  refine ⟨?_, similar_chunks_dict_lookup e db qs text, habort.1,
    fun hqs => habort.2 (similar_chunks_dict_ne_nil e db qs hqs)⟩
  by_cases h : text ∈ qs
  · rw [if_pos h]
    exact List.count_eq_one_of_mem (similar_chunks_dict_nodup e db qs)
      ((similar_chunks_dict_mem e db qs text).mpr h)
  · rw [if_neg h]
    exact List.count_eq_zero.mpr
      (fun hc => h ((similar_chunks_dict_mem e db qs text).mp hc))

/-- Witness for report_keyed_by_text_amended on the duplicate-text input,
with the non-emptiness hypothesis discharged. -/
theorem report_keyed_by_text_amended_witness :
    (dictKeys (similar_chunks_dict embedNil dbOne ["a", "a"])).count "a" =
      (if "a" ∈ ["a", "a"] then 1 else 0) ∧
    dictLookup (similar_chunks_dict embedNil dbOne ["a", "a"]) "a" =
      (if "a" ∈ ["a", "a"] then some (fetchallRecords embedNil dbOne "a")
       else Option.none) ∧
    (compliance_results_run (fun _ => "True") embedNil dbOne ["a", "a"]).2 = [] ∧
    (compliance_results_run (fun _ => "True") embedNil dbOne ["a", "a"]).1.isOk = false :=
  have h := report_keyed_by_text_amended (fun _ => "True") embedNil dbOne ["a", "a"] "a"
  ⟨h.1, h.2.1, h.2.2.1, h.2.2.2 (by decide)⟩
